import Mathlib

/-
Verification of the delivery-route optimizer (python_backend) against its
specification.  The Python sources are embedded shallowly:

* Python floats are modelled exactly as integer fractions (`PyFloat`);
  IEEE rounding is not modelled.  All arithmetic used by the engine
  (addition, multiplication, division by a positive speed, truncation
  by int()) is exact on the values appearing in the claims.
* `float('inf')` (returned by `calculate_travel_time` for speed <= 0) is
  modelled as `none : Option PyFloat`; Python's OverflowError on
  `int(float('inf'))` is modelled by the enclosing function returning `none`.
* The OR-Tools solver (`RoutingModel.SolveWithParameters`) is an external
  library, not repository code.  Its outcome is passed to
  `optimize_route_model` as a parameter: `none` when no solution was found,
  `some tourTail` for the visiting order it returned (the sequence of nodes
  after the depot, ending with the depot, exactly as `_extract_route` walks
  it via `routing.Start` / `NextVar` / `IsEnd`).  The model created in
  `_solve_routing_problem` registers only the distance callback: no time
  windows, no disjunctions, so any returned solution visits every node.
* The geodesic distance (geopy, an external collaborator) is a parameter
  `geo`; `geoZero` instantiates it for requests whose points all coincide,
  where the true geodesic distance is 0.
-/

/-- Exact model of a Python float as a fraction `num / den`.  Every
constructor used below keeps `den` positive, so the comparison and
truncation operations below agree with the real values. -/
structure PyFloat where
  num : ℤ
  den : ℤ
deriving DecidableEq

/-- Embed an integer (Python ints are exact and promote exactly). -/
def PyFloat.ofInt (z : ℤ) : PyFloat := ⟨z, 1⟩

/-- Exact float addition. -/
def PyFloat.add (a b : PyFloat) : PyFloat :=
  ⟨a.num * b.den + b.num * a.den, a.den * b.den⟩

/-- Exact float multiplication. -/
def PyFloat.mul (a b : PyFloat) : PyFloat :=
  ⟨a.num * b.num, a.den * b.den⟩

/-- Exact float division; the sign is moved to the numerator so the
denominator stays positive. -/
def PyFloat.div (a b : PyFloat) : PyFloat :=
  if b.num < 0 then ⟨-(a.num * b.den), -(a.den * b.num)⟩
  else ⟨a.num * b.den, a.den * b.num⟩

/-- Comparison `a <= b` (valid for the positive denominators maintained
by the constructors above). -/
def PyFloat.leB (a b : PyFloat) : Bool :=
  decide (a.num * b.den ≤ b.num * a.den)

/-- Python's `int(x)` on a float: truncation toward zero. -/
def PyFloat.trunc (a : PyFloat) : ℤ :=
  Int.tdiv a.num a.den

/-- External geodesic distance `(lat1, lng1, lat2, lng2) -> km`
(geopy's `geodesic(...).kilometers`, an excluded collaborator). -/
def Geo : Type := PyFloat → PyFloat → PyFloat → PyFloat → PyFloat

/-- Instantiation of the geodesic oracle for requests whose points all
coincide: the geodesic distance from a point to itself is 0 km. -/
def geoZero : Geo := fun _ _ _ _ => PyFloat.ofInt 0

/-- Value of a decimal digit character. -/
def digitVal (c : Char) : ℕ := c.toNat - 48

/-- Accumulate a digit string into a natural number. -/
def digitsToNat (l : List Char) : ℕ :=
  l.foldl (fun a c => a * 10 + digitVal c) 0

/-- A non-empty all-digit character list. -/
def isDigits (l : List Char) : Bool :=
  !l.isEmpty && l.all Char.isDigit

/-- Model of Python's `int(s)` on the strings relevant here: an optional
sign followed by decimal digits (Python's `int` additionally strips
whitespace and accepts underscore separators; those corner cases are not
modelled).  `none` models the ValueError raised on anything else. -/
def pyInt? : List Char → Option ℤ
  | '-' :: rest => if isDigits rest then some (-(digitsToNat rest : ℤ)) else none
  | '+' :: rest => if isDigits rest then some ((digitsToNat rest : ℤ)) else none
  | l => if isDigits l then some ((digitsToNat l : ℤ)) else none

/-- Leading match of a pattern against a character list. -/
def leadMatch : List Char → List Char → Bool
  | [], _ => true
  | _ :: _, [] => false
  | p :: ps, c :: cs => p == c && leadMatch ps cs

/-- Substring search on character lists. -/
def hasSub (pat : List Char) : List Char → Bool
  | [] => leadMatch pat []
  | c :: cs => leadMatch pat (c :: cs) || hasSub pat cs

/-- Python's substring containment `pat in s`. -/
def pyInStr (pat s : String) : Bool := hasSub pat.data s.data

/-- Model of Python's `s.split(':')` on the character list of `s`. -/
def splitCh : List Char → List (List Char)
  | [] => [[]]
  | c :: cs =>
    if c = ':' then [] :: splitCh cs
    else
      match splitCh cs with
      | [] => [[c]]
      | g :: gs => (c :: g) :: gs

/-- The parse attempted inside `DistanceCalculator.time_to_minutes`
(distance_calculator.py): split on ':' into exactly two parts and convert
both with `int`.  `none` models the exception swallowed by its bare
`except`. -/
def parsedPair? (s : String) : Option (ℤ × ℤ) :=
  match splitCh s.data with
  | [h, m] =>
    match pyInt? h, pyInt? m with
    | some a, some b => some (a, b)
    | _, _ => none
  | _ => none

/-- Models `DistanceCalculator.time_to_minutes` (distance_calculator.py):
"HH:MM" to minutes since midnight, with the bare `except: return 0`. -/
def time_to_minutes (s : String) : ℤ :=
  match parsedPair? s with
  | some (h, m) => h * 60 + m
  | none => 0

/-- Python's f"{n:02d}": zero-pad a nonnegative value to two characters;
for a negative value the minus sign counts toward the width, so no
padding occurs at width 2. -/
def pad2 (n : ℤ) : String :=
  if n < 0 then "-" ++ Nat.repr (-n).toNat
  else if n < 10 then "0" ++ Nat.repr n.toNat
  else Nat.repr n.toNat

/-- Models `DistanceCalculator.minutes_to_time` (distance_calculator.py):
minutes since midnight to "HH:MM".  Python's `//` and `%` are floor
division and nonnegative remainder for the positive divisor 60, which is
what Lean's `Int` division and remainder compute. -/
def minutes_to_time (minutes : ℤ) : String :=
  pad2 (minutes / 60) ++ ":" ++ pad2 (minutes % 60)

/-- Models `DistanceCalculator.is_time_window_valid`
(distance_calculator.py): window containment with midnight wrap. -/
def is_time_window_valid (arrival_time_minutes : ℤ)
    (time_window_start time_window_end : String) : Bool :=
  if time_to_minutes time_window_end < time_to_minutes time_window_start then
    decide (arrival_time_minutes ≥ time_to_minutes time_window_start)
      || decide (arrival_time_minutes ≤ time_to_minutes time_window_end)
  else
    decide (time_to_minutes time_window_start ≤ arrival_time_minutes)
      && decide (arrival_time_minutes ≤ time_to_minutes time_window_end)

/-- Models `DistanceCalculator.validate_coordinates`
(distance_calculator.py). -/
def validate_coordinates (lat lng : PyFloat) : Bool :=
  (PyFloat.ofInt (-90)).leB lat && lat.leB (PyFloat.ofInt 90)
    && (PyFloat.ofInt (-180)).leB lng && lng.leB (PyFloat.ofInt 180)

/-- Models `DistanceCalculator.calculate_travel_time`
(distance_calculator.py): minutes for `distance_km` at `speed_kmh`
(falling back to the calculator's default speed); `none` models the
`float('inf')` returned when the speed is <= 0. -/
def calculate_travel_time (default_speed_kmh : PyFloat) (distance_km : PyFloat)
    (speed_kmh : Option PyFloat) : Option PyFloat :=
  let sp := speed_kmh.getD default_speed_kmh
  if sp.leB (PyFloat.ofInt 0) then none
  else some ((distance_km.div sp).mul (PyFloat.ofInt 60))

/-- Pairwise geodesic distance between two indexed points. -/
def pointDist (geo : Geo) (points : List (PyFloat × PyFloat)) (i j : ℕ) : PyFloat :=
  let p := points.getD i (PyFloat.ofInt 0, PyFloat.ofInt 0)
  let q := points.getD j (PyFloat.ofInt 0, PyFloat.ofInt 0)
  geo p.1 p.2 q.1 q.2

/-- Models `DistanceCalculator.create_distance_matrix`
(distance_calculator.py): n x n distance and travel-time matrices with
zero diagonal; travel times use the calculator's default speed. -/
def create_distance_matrix (geo : Geo) (default_speed_kmh : PyFloat)
    (points : List (PyFloat × PyFloat)) :
    List (List PyFloat) × List (List (Option PyFloat)) :=
  let n := points.length
  ((List.range n).map fun i => (List.range n).map fun j =>
      if i = j then PyFloat.ofInt 0 else pointDist geo points i j,
   (List.range n).map fun i => (List.range n).map fun j =>
      if i = j then some (PyFloat.ofInt 0)
      else calculate_travel_time default_speed_kmh (pointDist geo points i j) none)

/-- Priority tiers (models.py `PriorityLevel`, an int enum). -/
inductive PriorityLevel
  | high
  | medium
  | low
deriving DecidableEq

/-- The underlying int of the `PriorityLevel` enum member. -/
def PriorityLevel.value : PriorityLevel → ℤ
  | .high => 1
  | .medium => 2
  | .low => 3

/-- Optimization criterion (models.py `OptimizeBy`). -/
inductive OptimizeBy
  | distance
  | time
  | priority
deriving DecidableEq

/-- models.py `TimeWindow` ("HH:MM" strings); the source field `end` is a
Lean keyword, rendered here as `end'`. -/
structure TimeWindow where
  start : String
  end' : String
deriving DecidableEq

/-- models.py `PickupLocation`. -/
structure PickupLocation where
  address : String
  zipcode : String
  lat : PyFloat
  lng : PyFloat
  start_time : String
  end_time : String
deriving DecidableEq

/-- models.py `Settings`. -/
structure Settings where
  return_to_origin : Bool
  time_per_stop_minutes : ℤ
  vehicle_speed_kmph : PyFloat
  optimize_by : OptimizeBy
deriving DecidableEq

/-- models.py `Delivery`. -/
structure Delivery where
  address : String
  zipcode : String
  lat : PyFloat
  lng : PyFloat
  priority : PriorityLevel
  time_window : TimeWindow
deriving DecidableEq

/-- models.py `RoutingRequest`. -/
structure RoutingRequest where
  pickup : PickupLocation
  settings : Settings
  deliveries : List Delivery
deriving DecidableEq

/-- models.py `RouteStop`.  `_extract_route` always supplies `address`,
`lat` and `lng`, so they are plain fields here (models.py declares them
Optional with default None); `departure_time` is genuinely absent on the
return stop and stays optional. -/
structure RouteStop where
  stop : String
  zipcode : String
  arrival_time : String
  departure_time : Option String
  address : String
  lat : PyFloat
  lng : PyFloat
  priority : Option PriorityLevel
deriving DecidableEq

/-- One entry of the `skipped_deliveries` list of dicts built in
routing_engine.py. -/
structure SkippedDelivery where
  address : String
  zipcode : String
  priority : ℤ
  reason : String
deriving DecidableEq

/-- models.py `RoutingResponse` (the untyped `optimization_metrics` dict
carries only timing/telemetry and is not modelled). -/
structure RoutingResponse where
  route : List RouteStop
  total_distance_km : PyFloat
  total_time_minutes : ℤ
  is_feasible : Bool
  skipped_deliveries : List SkippedDelivery
deriving DecidableEq

/-- The tuple returned by `RoutingEngine._prepare_optimization_data`
(routing_engine.py), with named components. -/
structure PreparedData where
  points : List (PyFloat × PyFloat)
  distance_matrix : List (List PyFloat)
  time_matrix : List (List (Option PyFloat))
  priorities : List ℤ
  time_windows : List (String × String)

/-- Models `RoutingEngine._prepare_optimization_data` (routing_engine.py):
node 0 is the pickup, nodes 1..N the deliveries in input order; the
matrices are built by the engine's DistanceCalculator, which was
constructed with the routing config's `default_speed_kmh` — the
`settings` argument is received but never read. -/
def prepare_optimization_data (geo : Geo) (default_speed_kmh : PyFloat)
    (pickup : PickupLocation) (deliveries : List Delivery) (_settings : Settings) :
    PreparedData :=
  let points := (pickup.lat, pickup.lng) :: deliveries.map (fun d => (d.lat, d.lng))
  let priorities := 0 :: deliveries.map (fun d => d.priority.value)
  let time_windows :=
    (pickup.start_time, pickup.end_time)
      :: deliveries.map (fun d => (d.time_window.start, d.time_window.end'))
  let m := create_distance_matrix geo default_speed_kmh points
  ⟨points, m.1, m.2, priorities, time_windows⟩

/-- The first stop appended by `_extract_route`: the pickup, with arrival
and departure both equal to the pickup's window start string. -/
def pickupStop (pickup : PickupLocation) : RouteStop :=
  { stop := pickup.address, zipcode := pickup.zipcode,
    arrival_time := pickup.start_time, departure_time := some pickup.start_time,
    address := pickup.address, lat := pickup.lat, lng := pickup.lng,
    priority := none }

/-- The stop appended by `_extract_route` when the walk returns to node 0:
labelled "(Return)", no departure time. -/
def returnStop (pickup : PickupLocation) (arrival : String) : RouteStop :=
  { stop := pickup.address ++ " (Return)", zipcode := pickup.zipcode,
    arrival_time := arrival, departure_time := none,
    address := pickup.address, lat := pickup.lat, lng := pickup.lng,
    priority := none }

/-- The stop appended by `_extract_route` for delivery node `to_node`
(deliveries are indexed from 1). -/
def deliveryStop (d : Delivery) (arrival departure : String) : RouteStop :=
  { stop := d.address, zipcode := d.zipcode,
    arrival_time := arrival, departure_time := some departure,
    address := d.address, lat := d.lat, lng := d.lng,
    priority := some d.priority }

/-- The while-loop of `RoutingEngine._extract_route` (routing_engine.py):
walk the solver's node sequence carrying the running clock
`current_time_minutes` (a float; here exact).  The first leg out of the
pickup adds only travel time; later legs add the per-stop service time
and then the travel time.  A `none` travel-time entry is `float('inf')`:
the subsequent `int(current_time_minutes)` raises OverflowError, modelled
by returning `none`.  An out-of-range delivery index (IndexError) is
likewise `none`. -/
def extract_route_aux (pickup : PickupLocation) (deliveries : List Delivery)
    (service : ℤ) (tmat : List (List (Option PyFloat))) :
    ℕ → PyFloat → List ℕ → Option (List RouteStop)
  | _, _, [] => some []
  | prev, cur, node :: rest =>
    match (tmat.getD prev []).getD node none with
    | none => none
    | some t =>
      let c := if prev = 0 then cur.add t
               else (cur.add (PyFloat.ofInt service)).add t
      let ci := c.trunc
      let arrival := minutes_to_time ci
      let departure := minutes_to_time (ci + service)
      if node = 0 then
        (extract_route_aux pickup deliveries service tmat node c rest).map
          (fun tail => returnStop pickup arrival :: tail)
      else
        match deliveries.get? (node - 1) with
        | none => none
        | some d =>
          (extract_route_aux pickup deliveries service tmat node c rest).map
            (fun tail => deliveryStop d arrival departure :: tail)

/-- Models `RoutingEngine._extract_route` (routing_engine.py): prepend the
pickup stop, then walk the solver's node sequence (`tourTail` is the
sequence of nodes after the depot, ending with the depot).  The clock
starts at the parse of the pickup's `start_time`.  Note that
`settings.return_to_origin` is never consulted: the walk always ends back
at node 0 because the OR-Tools manager fixes the depot as both start and
end. -/
def extract_route (pickup : PickupLocation) (deliveries : List Delivery)
    (settings : Settings) (tmat : List (List (Option PyFloat)))
    (tourTail : List ℕ) : Option (List RouteStop) :=
  (extract_route_aux pickup deliveries settings.time_per_stop_minutes tmat 0
      (PyFloat.ofInt (time_to_minutes pickup.start_time)) tourTail).map
    (fun tail => pickupStop pickup :: tail)

/-- Models `RoutingEngine._calculate_total_distance` (routing_engine.py):
sum of geodesic distances between consecutive stops. -/
def calculate_total_distance (geo : Geo) : List RouteStop → PyFloat
  | a :: b :: rest =>
    (geo a.lat a.lng b.lat b.lng).add (calculate_total_distance geo (b :: rest))
  | _ => PyFloat.ofInt 0

/-- Inner loop of `RoutingEngine._calculate_total_time` (routing_engine.py):
for each leg add the travel time (computed at the calculator's default
speed) and, unless the next stop is the final stop and is the "(Return)"
stop, the service time. -/
def total_time_aux (geo : Geo) (default_speed_kmh : PyFloat) (service : ℤ) :
    RouteStop → List RouteStop → Option PyFloat
  | _, [] => some (PyFloat.ofInt 0)
  | a, b :: rest =>
    let t := calculate_travel_time default_speed_kmh (geo a.lat a.lng b.lat b.lng) none
    let t' := if !rest.isEmpty || !pyInStr "Return" b.stop then
                t.map (fun x => x.add (PyFloat.ofInt service))
              else t
    match t', total_time_aux geo default_speed_kmh service b rest with
    | some x, some y => some (x.add y)
    | _, _ => none

/-- Models `RoutingEngine._calculate_total_time` (routing_engine.py),
including the final `int(total_time)` truncation; `none` models the
OverflowError raised by `int` on an infinite total. -/
def calculate_total_time (geo : Geo) (default_speed_kmh : PyFloat)
    (route_stops : List RouteStop) (service : ℤ) : Option ℤ :=
  match route_stops with
  | [] => some 0
  | a :: rest => (total_time_aux geo default_speed_kmh service a rest).map PyFloat.trunc

/-- The set comprehension in `_determine_skipped_deliveries`
(routing_engine.py): addresses of stops whose `address` is truthy (the
engine always supplies a string, so truthy means non-empty) and whose
`stop` label does not contain "Return". -/
def includedAddresses (route_stops : List RouteStop) : List String :=
  (route_stops.filter (fun s => s.address != "" && !pyInStr "Return" s.stop)).map
    (fun s => s.address)

/-- The skipped-delivery dict built in `_determine_skipped_deliveries`. -/
def skipEntry (d : Delivery) : SkippedDelivery :=
  { address := d.address, zipcode := d.zipcode, priority := d.priority.value,
    reason := "Not included in optimal route" }

/-- Models `RoutingEngine._determine_skipped_deliveries`
(routing_engine.py): a delivery is reported skipped exactly when its
address is not in the included-address set. -/
def determine_skipped_deliveries (deliveries : List Delivery)
    (route_stops : List RouteStop) : List SkippedDelivery :=
  (deliveries.filter (fun d => !((includedAddresses route_stops).contains d.address))).map
    skipEntry

/-- Models `RoutingEngine._create_infeasible_response` (routing_engine.py):
the structured response returned when the solver found no solution. -/
def create_infeasible_response (_pickup : PickupLocation)
    (deliveries : List Delivery) : RoutingResponse :=
  { route := [],
    total_distance_km := PyFloat.ofInt 0,
    total_time_minutes := 0,
    is_feasible := false,
    skipped_deliveries := deliveries.map (fun d =>
      { address := d.address, zipcode := d.zipcode, priority := d.priority.value,
        reason := "Route infeasible - time constraints cannot be met" }) }

/-- Models `RoutingEngine.optimize_route` (routing_engine.py) given the
external solver's outcome.  A solution leads to the feasible branch
(`is_feasible := true` unconditionally — no time-window check occurs
anywhere on this path); no solution leads to
`_create_infeasible_response`.  A `none` result models an exception
escaping the engine (OverflowError from an infinite travel time or an
IndexError), which main.py's catch-all would turn into an error
response. -/
def optimize_route_model (geo : Geo) (default_speed_kmh : PyFloat)
    (req : RoutingRequest) (solution : Option (List ℕ)) :
    Option RoutingResponse :=
  let data := prepare_optimization_data geo default_speed_kmh req.pickup
    req.deliveries req.settings
  match solution with
  | none => some (create_infeasible_response req.pickup req.deliveries)
  | some tourTail =>
    match extract_route req.pickup req.deliveries req.settings
        data.time_matrix tourTail with
    | none => none
    | some route_stops =>
      match calculate_total_time geo default_speed_kmh route_stops
          req.settings.time_per_stop_minutes with
      | none => none
      | some total_time =>
        some { route := route_stops,
               total_distance_km := calculate_total_distance geo route_stops,
               total_time_minutes := total_time,
               is_feasible := true,
               skipped_deliveries :=
                 determine_skipped_deliveries req.deliveries route_stops }

/-- The validation block at the top of the `/optimize-route` handler
(main.py `optimize_route`): reject (HTTP 400) when the delivery list is
empty, the pickup coordinates are out of range, or some delivery's
coordinates are out of range — in that order, before the engine is
invoked.  Time strings are never validated.  `some detail` is the
rejection. -/
def validate_request (req : RoutingRequest) : Option String :=
  if req.deliveries.isEmpty then some "At least one delivery point is required"
  else if !(validate_coordinates req.pickup.lat req.pickup.lng) then
    some "Invalid coordinates for pickup"
  else
    (req.deliveries.find? (fun d => !(validate_coordinates d.lat d.lng))).map
      (fun d => "Invalid coordinates for delivery " ++ d.address)

/-- The `/optimize-route` handler (main.py): validate, then run the
engine.  `Except.error` is the synchronous InvalidInput rejection. -/
def optimize_endpoint (geo : Geo) (default_speed_kmh : PyFloat)
    (req : RoutingRequest) (solution : Option (List ℕ)) :
    Except String (Option RoutingResponse) :=
  match validate_request req with
  | some detail => Except.error detail
  | none => Except.ok (optimize_route_model geo default_speed_kmh req solution)

/-- Whether an Except value is a success. -/
def exceptOk {ε α : Type} : Except ε α → Bool
  | Except.ok _ => true
  | Except.error _ => false

/-- The routing config's `default_speed_kmh` (config.py, default 50.0),
the speed the engine's DistanceCalculator is constructed with. -/
def config_default_speed : PyFloat := PyFloat.ofInt 50

/-- The skip-reason taxonomy stated by the specification. -/
def spec_reason_enum : List String :=
  ["excluded_by_optimizer", "time_window_unreachable", "infeasible_route"]

/-- The two reason strings the engine actually produces. -/
def engine_reason_enum : List String :=
  ["Not included in optimal route", "Route infeasible - time constraints cannot be met"]

/-- Concrete pickup used by the concrete-input theorems (valid
coordinates, window 09:00-18:00). -/
def warehousePickup : PickupLocation :=
  { address := "WH", zipcode := "400001", lat := PyFloat.ofInt 19,
    lng := PyFloat.ofInt 73, start_time := "09:00", end_time := "18:00" }

/-- Default settings mirroring models.py field defaults. -/
def defaultSettings : Settings :=
  { return_to_origin := true, time_per_stop_minutes := 10,
    vehicle_speed_kmph := PyFloat.ofInt 40, optimize_by := OptimizeBy.priority }

/-- A delivery located at the pickup's coordinates whose window
(00:10-00:20) cannot contain any arrival after the 09:00 start. -/
def earlyWindowDelivery : Delivery :=
  { address := "D1", zipcode := "400002", lat := PyFloat.ofInt 19,
    lng := PyFloat.ofInt 73, priority := PriorityLevel.high,
    time_window := ⟨"00:10", "00:20"⟩ }

/-- A delivery located at the pickup's coordinates with an ordinary
window. -/
def plainDelivery : Delivery :=
  { address := "D1", zipcode := "400002", lat := PyFloat.ofInt 19,
    lng := PyFloat.ofInt 73, priority := PriorityLevel.high,
    time_window := ⟨"10:00", "13:00"⟩ }

/-- A delivery whose address is the empty string (falsy in Python). -/
def emptyAddressDelivery : Delivery :=
  { address := "", zipcode := "400003", lat := PyFloat.ofInt 19,
    lng := PyFloat.ofInt 73, priority := PriorityLevel.low,
    time_window := ⟨"09:00", "18:00"⟩ }

/-- Request whose only delivery has the unreachable 00:10-00:20 window. -/
def c1req : RoutingRequest :=
  ⟨warehousePickup, defaultSettings, [earlyWindowDelivery]⟩

/-- Settings with `return_to_origin := false`. -/
def noReturnSettings : Settings :=
  { defaultSettings with return_to_origin := false }

/-- Request asking not to return to the origin. -/
def c2req : RoutingRequest :=
  ⟨warehousePickup, noReturnSettings, [plainDelivery]⟩

/-- Settings with a vehicle speed of 0. -/
def zeroSpeedSettings : Settings :=
  { defaultSettings with vehicle_speed_kmph := PyFloat.ofInt 0 }

/-- Request whose settings specify vehicle speed 0. -/
def c3req : RoutingRequest :=
  ⟨warehousePickup, zeroSpeedSettings, [plainDelivery]⟩

/-- Pickup whose `start_time` is not an "HH:MM" string. -/
def badTimePickup : PickupLocation :=
  { warehousePickup with start_time := "banana" }

/-- Request with a malformed time string but valid coordinates and a
non-empty delivery list. -/
def c4req : RoutingRequest :=
  ⟨badTimePickup, defaultSettings, [plainDelivery]⟩

/-- Request used for the infeasible-branch counterexamples. -/
def c6req : RoutingRequest :=
  ⟨warehousePickup, defaultSettings, [plainDelivery]⟩

/-- Request whose only delivery has an empty (falsy) address. -/
def c10req : RoutingRequest :=
  ⟨warehousePickup, defaultSettings, [emptyAddressDelivery]⟩

/-- A character list without a colon is not split. -/
theorem splitCh_no_colon (l : List Char) (h : ':' ∉ l) : splitCh l = [l] := by
  induction l with
  | nil => rfl
  | cons c cs ih =>
    have hc : ¬(c = ':') := fun e => h (by simp [e])
    have hcs : ':' ∉ cs := fun hm => h (List.mem_cons_of_mem _ hm)
    simp [splitCh, hc, ih hcs]

/-- Splitting at the single colon separating two colon-free parts. -/
theorem splitCh_append (a b : List Char) (h : ':' ∉ a) :
    splitCh (a ++ ':' :: b) = a :: splitCh b := by
  induction a with
  | nil => simp [splitCh]
  | cons c cs ih =>
    have hc : ¬(c = ':') := fun e => h (by simp [e])
    have ih' := ih (fun hm => h (List.mem_cons_of_mem _ hm))
    simp [splitCh, hc, ih']

/-- For every two-or-fewer-digit value, the formatted field parses back to
the value and contains no colon. -/
theorem pad2_props :
    ∀ k : Fin 100,
      pyInt? (pad2 ((k.val : ℕ) : ℤ)).data = some ((k.val : ℕ) : ℤ)
        ∧ ':' ∉ (pad2 ((k.val : ℕ) : ℤ)).data := by
  decide

/-- C1: the spec claims every feasible result's included stops arrive
within their (wrap-normalized) time windows.  The code never checks any
time window: for the concrete request whose single delivery (at the
pickup's own coordinates) has window 00:10-00:20, the solver's only
possible tour is visited at 09:00 (outside the window, as
is_time_window_valid itself confirms), yet the response is returned with
is_feasible = true. -/
theorem feasible_result_violates_time_window :
    (optimize_route_model geoZero config_default_speed c1req (some [1, 0])).map
        (fun r => (r.is_feasible, r.route.map (fun s => (s.address, s.arrival_time))))
      = some (true, [("WH", "09:00"), ("D1", "09:00"), ("WH", "09:10")])
    ∧ is_time_window_valid (time_to_minutes "09:00")
        earlyWindowDelivery.time_window.start earlyWindowDelivery.time_window.end'
      = false
    ∧ c1req.deliveries = [earlyWindowDelivery] := by
  exact ⟨by decide, by decide, by decide⟩

/-- C2: the spec claims the pickup reappears last iff return_to_origin is
true.  The engine never reads return_to_origin and the OR-Tools manager
fixes the depot as both start and end, so the "(Return)" stop is always
appended: with return_to_origin = false the returned route still ends at
"WH (Return)". -/
theorem return_stop_appended_despite_no_return_setting :
    c2req.settings.return_to_origin = false
    ∧ (optimize_route_model geoZero config_default_speed c2req (some [1, 0])).map
        (fun r => (r.is_feasible, r.route.map (fun s => s.stop)))
      = some (true, ["WH", "D1", "WH (Return)"]) := by
  exact ⟨by decide, by decide⟩

/-- C3: the spec claims a vehicle speed of 0 makes every delivery
unreachable and yields an infeasible result with every delivery skipped
as "infeasible_route".  The travel-time utility does return an infinite
(none) time for speed 0, but the engine builds its matrices with the
routing config's default speed (50) and never passes
settings.vehicle_speed_kmph, and the solver ignores the time matrix
entirely: the zero-speed request yields a feasible response with no
skipped deliveries. -/
theorem zero_vehicle_speed_ignored_feasible :
    c3req.settings.vehicle_speed_kmph = PyFloat.ofInt 0
    ∧ calculate_travel_time config_default_speed (PyFloat.ofInt 5)
        (some (PyFloat.ofInt 0)) = none
    ∧ (optimize_route_model geoZero config_default_speed c3req (some [1, 0])).map
        (fun r => (r.is_feasible, r.skipped_deliveries))
      = some (true, []) := by
  exact ⟨by decide, by decide, by decide⟩

/-- C4 counterexample: a request whose pickup start_time is "banana"
(which fails HH:MM parsing) but whose coordinates are valid and whose
delivery list is non-empty is NOT rejected: validation passes and the
optimization proceeds, contradicting the claim that a malformed time
string raises InvalidInput before any search begins. -/
theorem malformed_time_not_rejected :
    parsedPair? c4req.pickup.start_time = none
    ∧ validate_request c4req = none
    ∧ exceptOk (optimize_endpoint geoZero config_default_speed c4req (some [1, 0]))
      = true := by
  exact ⟨by decide, by decide, by decide⟩

/-- C4 amended: the handler raises InvalidInput exactly when the delivery
list is empty or the pickup's or some delivery's coordinates are out of
range; time strings are never validated (a malformed one silently parses
as 0 minutes). -/
theorem invalid_input_iff_empty_or_bad_coords (req : RoutingRequest) :
    (validate_request req).isSome = true ↔
      (req.deliveries.isEmpty = true
        ∨ validate_coordinates req.pickup.lat req.pickup.lng = false
        ∨ ∃ d ∈ req.deliveries, validate_coordinates d.lat d.lng = false) := by
  by_cases h1 : req.deliveries.isEmpty
  · simp [validate_request, h1]
  · by_cases h2 : validate_coordinates req.pickup.lat req.pickup.lng
    · simp [validate_request, h1, h2, Option.isSome_map, List.find?_isSome]
    · simp [validate_request, h1, h2]

/-- C5 counterexample: the reason string actually attached by the
infeasible branch is "Route infeasible - time constraints cannot be met",
which is not one of the three enumerated reasons the spec fixes. -/
theorem infeasible_reason_not_in_spec_enum :
    (create_infeasible_response warehousePickup [plainDelivery]).skipped_deliveries.map
        (fun e => e.reason)
      = ["Route infeasible - time constraints cannot be met"]
    ∧ spec_reason_enum.contains "Route infeasible - time constraints cannot be met"
      = false := by
  exact ⟨by decide, by decide⟩

/-- C5 amended: every skipped-delivery reason the engine produces (on
either branch) is drawn from the fixed two-element set
engine_reason_enum, never a freeform string. -/
theorem skip_reasons_from_fixed_pair (ds : List Delivery) (rs : List RouteStop)
    (p : PickupLocation) :
    (determine_skipped_deliveries ds rs).all
        (fun e => engine_reason_enum.contains e.reason) = true
    ∧ (create_infeasible_response p ds).skipped_deliveries.all
        (fun e => engine_reason_enum.contains e.reason) = true := by
  constructor
  · rw [List.all_eq_true]
    intro e he
    simp only [determine_skipped_deliveries] at he
    obtain ⟨d, -, rfl⟩ := List.mem_map.mp he
    show engine_reason_enum.contains "Not included in optimal route" = true
    decide
  · rw [List.all_eq_true]
    intro e he
    simp only [create_infeasible_response] at he
    obtain ⟨d, -, rfl⟩ := List.mem_map.mp he
    show engine_reason_enum.contains
      "Route infeasible - time constraints cannot be met" = true
    decide

/-- C6 counterexample: the infeasible branch does return a structured
infeasible result with every delivery skipped, but the attached reason is
the string "Route infeasible - time constraints cannot be met", not the
spec's "infeasible — time constraints cannot be met." -/
theorem infeasible_reason_string_differs :
    (optimize_route_model geoZero config_default_speed c6req none).map
        (fun r => (r.is_feasible, r.skipped_deliveries.map (fun e => e.reason)))
      = some (false, ["Route infeasible - time constraints cannot be met"])
    ∧ "Route infeasible - time constraints cannot be met"
        ≠ "infeasible — time constraints cannot be met." := by
  exact ⟨by decide, by decide⟩

/-- C6 amended: whenever the solver finds no solution the optimizer does
not raise: it returns the structured infeasible response, whose
feasibility flag is false, whose route is empty, and which lists every
input delivery as skipped with reason "Route infeasible - time
constraints cannot be met". -/
theorem no_solution_returns_structured_infeasible (geo : Geo)
    (default_speed_kmh : PyFloat) (req : RoutingRequest) :
    optimize_route_model geo default_speed_kmh req none
      = some (create_infeasible_response req.pickup req.deliveries)
    ∧ (create_infeasible_response req.pickup req.deliveries).is_feasible = false
    ∧ (create_infeasible_response req.pickup req.deliveries).route = []
    ∧ (create_infeasible_response req.pickup req.deliveries).skipped_deliveries.map
        (fun e => e.address)
      = req.deliveries.map (fun d => d.address)
    ∧ (create_infeasible_response req.pickup req.deliveries).skipped_deliveries.all
        (fun e => e.reason == "Route infeasible - time constraints cannot be met")
      = true := by
  refine ⟨rfl, rfl, rfl, ?_, ?_⟩
  · simp only [create_infeasible_response]
    rw [List.map_map]
    rfl
  · rw [List.all_eq_true]
    intro e he
    simp only [create_infeasible_response] at he
    obtain ⟨d, -, rfl⟩ := List.mem_map.mp he
    rfl

/-- C7: the window-containment predicate holds exactly as the spec
describes: for a wrapping window (end before start) the arrival must be
at or after the start or at or before the end; otherwise it must lie
between start and end inclusive. -/
theorem time_window_validity_characterization (arrival : ℤ) (ws we : String) :
    is_time_window_valid arrival ws we = true ↔
      (if time_to_minutes we < time_to_minutes ws
       then time_to_minutes ws ≤ arrival ∨ arrival ≤ time_to_minutes we
       else time_to_minutes ws ≤ arrival ∧ arrival ≤ time_to_minutes we) := by
  by_cases h : time_to_minutes we < time_to_minutes ws
  · simp [is_time_window_valid, h, ge_iff_le]
  · simp [is_time_window_valid, h]

/-- C8: formatting a valid minute-of-day and parsing it back is the
identity. -/
theorem parse_format_roundtrip (m : ℤ) (h0 : 0 ≤ m) (h1 : m < 1440) :
    time_to_minutes (minutes_to_time m) = m := by
  have ea : (((m / 60).toNat : ℕ) : ℤ) = m / 60 := by omega
  have eb : (((m % 60).toNat : ℕ) : ℤ) = m % 60 := by omega
  have pa :
      pyInt? (pad2 (((m / 60).toNat : ℕ) : ℤ)).data
          = some (((m / 60).toNat : ℕ) : ℤ)
        ∧ ':' ∉ (pad2 (((m / 60).toNat : ℕ) : ℤ)).data :=
    pad2_props ⟨(m / 60).toNat, by omega⟩
  have pb :
      pyInt? (pad2 (((m % 60).toNat : ℕ) : ℤ)).data
          = some (((m % 60).toNat : ℕ) : ℤ)
        ∧ ':' ∉ (pad2 (((m % 60).toNat : ℕ) : ℤ)).data :=
    pad2_props ⟨(m % 60).toNat, by omega⟩
  rw [ea] at pa
  rw [eb] at pb
  have hdata :
      (pad2 (m / 60) ++ ":" ++ pad2 (m % 60)).data
        = (pad2 (m / 60)).data ++ ':' :: (pad2 (m % 60)).data := by
    rw [String.data_append, String.data_append, List.append_assoc]
    rfl
  have hsplit :
      splitCh ((pad2 (m / 60) ++ ":" ++ pad2 (m % 60)).data)
        = [(pad2 (m / 60)).data, (pad2 (m % 60)).data] := by
    rw [hdata, splitCh_append _ _ pa.2, splitCh_no_colon _ pb.2]
  simp only [time_to_minutes, minutes_to_time, parsedPair?, hsplit, pa.1, pb.1]
  omega

/-- Witness for C8 at the concrete minute 540 (09:00). -/
theorem parse_format_roundtrip_witness :
    time_to_minutes (minutes_to_time 540) = 540 :=
  parse_format_roundtrip 540 (by decide) (by decide)

/-- C9: the time parser is total — when the string does not split into
exactly two colon-separated integer fields it returns 0 (midnight)
instead of raising, and when it does parse the result is
hours * 60 + minutes. -/
theorem time_to_minutes_total_and_default (s : String) :
    (parsedPair? s = none → time_to_minutes s = 0)
    ∧ (∀ h m, parsedPair? s = some (h, m) → time_to_minutes s = h * 60 + m) := by
  constructor
  · intro h
    simp [time_to_minutes, h]
  · intro a b h
    simp [time_to_minutes, h]

/-- Witness for C9: a malformed string falls back to 0 and a well-formed
one parses positionally. -/
theorem time_to_minutes_total_and_default_witness :
    time_to_minutes "bananas" = 0 ∧ time_to_minutes "09:30" = 570 :=
  ⟨(time_to_minutes_total_and_default "bananas").1 (by decide),
   by
    have h := (time_to_minutes_total_and_default "09:30").2 9 30 (by decide)
    simpa using h⟩

/-- C10 counterexample: a visited delivery whose address is the empty
string (falsy in Python) is excluded from the included-address set, so it
is reported as skipped even though a non-return stop of the returned
route (the middle stop, whose label does not contain "Return") has
exactly its address. -/
theorem empty_address_delivery_reported_skipped :
    (optimize_route_model geoZero config_default_speed c10req (some [1, 0])).map
        (fun r => (r.route.map (fun s => (s.stop, s.address)),
                   r.skipped_deliveries.map (fun e => e.address)))
      = some ([("WH", "WH"), ("", ""), ("WH (Return)", "WH")], [""])
    ∧ pyInStr "Return" "" = false
    ∧ c10req.deliveries.map (fun d => d.address) = [""] := by
  exact ⟨by decide, by decide, by decide⟩

/-- C10 amended: a delivery is reported skipped iff its address is not
among the addresses of route stops that have a non-empty address and
whose label does not contain "Return" (address-set membership, not
index identity; in particular deliveries sharing such an included address
are never reported skipped). -/
theorem skipped_iff_address_not_included (ds : List Delivery)
    (rs : List RouteStop) (d : Delivery) (hd : d ∈ ds) :
    skipEntry d ∈ determine_skipped_deliveries ds rs ↔
      (includedAddresses rs).contains d.address = false := by
  constructor
  · intro h
    obtain ⟨d', hd', heq⟩ := List.mem_map.mp h
    have haddr : d'.address = d.address := congrArg SkippedDelivery.address heq
    have hp := (List.mem_filter.mp hd').2
    rw [haddr] at hp
    simpa using hp
  · intro h
    have hb : (!((includedAddresses rs).contains d.address)) = true := by
      rw [h]
      rfl
    exact List.mem_map.mpr ⟨d, List.mem_filter.mpr ⟨hd, hb⟩, rfl⟩

/-- Witness for C10's amended claim: a delivery absent from an empty
route is reported skipped. -/
theorem skipped_iff_address_not_included_witness :
    skipEntry plainDelivery ∈ determine_skipped_deliveries [plainDelivery] [] :=
  (skipped_iff_address_not_included [plainDelivery] [] plainDelivery
      (List.mem_singleton.mpr rfl)).mpr (by decide)
